import Mathlib

/-!
# Verification of the RepoPulse ML service core

Shallow embedding of the model lifecycle and explainable-prediction
pipeline of the RepoPulse ML service (`ml-service/app`): the three model
wrappers (risk, churn, anomaly), the explanation engine
(`get_feature_importance`), the recommendation generator, and the
service-facade post-processing (`predict_churn` leveling,
`detect_anomalies` flagging).

Numeric values are embedded as rationals (`ℚ`); the only transcendental
computation in the source, `np.exp` inside `generate_recommendations`,
is embedded with `Real.exp`.  Trained estimators are opaque in the
source (serialized scikit-learn objects), so they are parameters of the
embedded operations: a per-row scoring function for prediction, and a
global importance vector for the explanation engine.
-/

namespace RepoPulse

/-! ### Risk level bucketing — `risk_model.py`, `RiskModel.get_risk_level` -/

/-- Embeds `RiskModel.get_risk_level` (risk_model.py lines 170-177). -/
def get_risk_level (risk_score : ℚ) : String :=
  if risk_score < 0.4 then "Low"
  else if risk_score ≤ 0.7 then "Medium"
  else "High"

/-! ### Churn level bucketing — `main.py`, `predict_churn` -/

/-- Embeds the churn-level ladder of `predict_churn` (main.py lines 153-161). -/
def churn_level (churn_prob : ℚ) : String :=
  if churn_prob > 0.8 then "critical"
  else if churn_prob > 0.6 then "high"
  else if churn_prob > 0.4 then "medium"
  else "low"

/-! ### Explanation records — `risk_model.py`, `get_feature_importance` -/

/-- One entry of the list built by `RiskModel.get_feature_importance`
(risk_model.py lines 150-156): a Python dict with keys `feature`,
`description`, `value`, `importance`, `impact_weight`. -/
structure ImpactRecord where
  feature : String
  description : String
  value : ℚ
  importance : ℚ
  impact_weight : ℚ

/-! ### Recommendation generator — `risk_model.py`, `generate_recommendations` -/

/-- The eight PR feature fields of the `PRFeatures` pydantic model
(main.py lines 22-30), as consumed by `generate_recommendations`. -/
structure PRFeatures where
  f1 : ℚ
  f2 : ℚ
  f3 : ℚ
  f4 : ℚ
  f5 : ℚ
  f6 : ℚ
  f7 : ℚ
  f8 : ℚ

/-- Python `int()` applied to a real number: truncation toward zero. -/
noncomputable def pyInt (x : ℝ) : ℤ :=
  if 0 ≤ x then ⌊x⌋ else ⌈x⌉

/-- Embeds `approx_lines = int(np.exp(lines_added_deleted) - 1)`
(risk_model.py line 197). -/
noncomputable def approx_lines (f1 : ℚ) : ℤ :=
  pyInt (Real.exp (f1 : ℝ) - 1)

/-- Appends one message when its rule condition holds:
`recommendations.append(msg)` guarded by the rule. -/
def appendIf (c : Prop) [Decidable c] (msg : String) (recs : List String) :
    List String :=
  if c then recs ++ [msg] else recs

def recSplitPR : String :=
  "Consider splitting this PR into smaller modules to reduce review complexity."

def recMultipleFiles : String :=
  "This PR modifies multiple files - consider modular refactoring or breaking into smaller PRs."

def recSeniorReviewer : String :=
  "Assign a senior reviewer due to low contributor experience."

def recHighChurn : String :=
  "High file churn detected - consider refactoring before merge to reduce technical debt."

def recSlowMerge : String :=
  "This PR has slow merge time - prioritize review or break into smaller parts."

def recHighRejection : String :=
  "Contributor has high rejection rate - ensure thorough testing before submission."

def recMultipleCommits : String :=
  "Multiple commits suggest iterations - consider squash merging for cleaner history."

def recNoReviewComments : String :=
  "No review comments detected - request additional review or clarification."

def recHighOverallRisk : String :=
  "This PR has high overall risk - consider additional testing and review cycles."

def recLooksGood : String :=
  "PR looks good - proceed with standard review process."

/-- The eight threshold rules of `generate_recommendations`
(risk_model.py lines 199-222), applied in declaration order. -/
noncomputable def ruleRecs (f : PRFeatures) (risk_score : ℚ) : List String :=
  ([] : List String)
    |> appendIf (approx_lines f.f1 > 1500) recSplitPR
    |> appendIf (f.f2 > 10) recMultipleFiles
    |> appendIf (f.f7 < 0.3) recSeniorReviewer
    |> appendIf (f.f8 > 0.6) recHighChurn
    |> appendIf (f.f5 > 0.5) recSlowMerge
    |> appendIf (f.f6 > 0.3) recHighRejection
    |> appendIf (f.f3 > 5) recMultipleCommits
    |> appendIf (f.f4 = 0 ∧ risk_score > 0.5) recNoReviewComments

/-- Embeds `if risk_score > 0.7 and len(recommendations) == 0: append(...)`
(risk_model.py lines 225-226). -/
def fallbackHighRisk (risk_score : ℚ) (recs : List String) : List String :=
  if risk_score > 0.7 ∧ recs = [] then recs ++ [recHighOverallRisk] else recs

/-- Embeds `if len(recommendations) == 0: append(...)` (risk_model.py lines 228-229). -/
def fallbackLooksGood (recs : List String) : List String :=
  if recs = [] then recs ++ [recLooksGood] else recs

/-- Embeds `generate_recommendations` (risk_model.py lines 180-231).
The `top_factors` argument is accepted but, as in the source, unused. -/
noncomputable def generate_recommendations (features : PRFeatures)
    (risk_score : ℚ) (top_factors : List ImpactRecord) : List String :=
  fallbackLooksGood (fallbackHighRisk risk_score (ruleRecs features risk_score))

/-- The end-to-end sample risk feature vector from the spec:
`f1=7.5, f2=15, f3=6, f4=0, f5=0.6, f6=0.4, f7=0.2, f8=0.7`. -/
def pr8 : PRFeatures :=
  ⟨7.5, 15, 6, 0, 0.6, 0.4, 0.2, 0.7⟩

/-- A quiet PR: no threshold rule triggers on it (`f4 = 1` review comment,
`f7 = 1` experience, everything else 0). -/
def prQuiet : PRFeatures :=
  ⟨0, 0, 0, 1, 0, 0, 1, 0⟩

/-! ### Anomaly scoring — `anomaly_model.py`, `AnomalyModel.predict` -/

/-- Computes `arr.min()` of a numpy 1-D array as a left fold; the source never
reaches the empty case (numpy raises on it), the `0` default is inert. -/
def listMin : List ℚ → ℚ
  | [] => 0
  | x :: xs => xs.foldl min x

/-- Computes `arr.max()` of a numpy 1-D array as a left fold. -/
def listMax : List ℚ → ℚ
  | [] => 0
  | x :: xs => xs.foldl max x

/-- The epsilon `1e-10` added to the range denominator
(anomaly_model.py line 86). -/
def anomalyEps : ℚ := 1 / 10 ^ 10

/-- The min-max range denominator `raw.max() - raw.min() + 1e-10`. -/
def rangeDen (raw : List ℚ) : ℚ :=
  listMax raw - listMin raw + anomalyEps

/-- Embeds `normalized_scores = (raw - raw.min()) / (raw.max() - raw.min() + 1e-10)`
(anomaly_model.py line 86). -/
def normalizeScores (raw : List ℚ) : List ℚ :=
  raw.map fun r => (r - listMin raw) / rangeDen raw

/-- Embeds `anomaly_scores = 1 - normalized_scores` (anomaly_model.py line 89):
inversion so that higher = more anomalous. -/
def anomalyScoresOf (raw : List ℚ) : List ℚ :=
  (normalizeScores raw).map fun s => 1 - s

/-! ### Feature matrices, arity validation and the three predict paths -/

/-- A 2-D numpy float array: a rectangular batch of feature rows;
`cols` plays the role of `shape[1]`. -/
structure NpMatrix where
  cols : ℕ
  rows : List (List ℚ)
  rect : ∀ r ∈ rows, r.length = cols

/-- Error taxonomy of the prediction paths.  `invalidInput` embeds the
`ValueError(f"Expected N features, got M")` raised on feature-arity
mismatch, carrying the expected and the actual count. -/
inductive MLError where
  | invalidInput (expected actual : ℕ)

/-- Embeds `RiskModel.predict` (risk_model.py lines 108-122) on a trained
wrapper.  The trained estimator is opaque in the source (a fitted
RandomForestClassifier); it is represented by the per-row scoring function
`est`, the class-1 column of `predict_proba`. -/
def RiskModel.predict (est : List ℚ → ℚ) (features : NpMatrix) :
    Except MLError (List ℚ) :=
  if features.cols ≠ 8 then .error (.invalidInput 8 features.cols)
  else .ok (features.rows.map est)

/-- Embeds `ChurnModel.predict` (churn_model.py lines 69-77):
`np.clip(self.model.predict(features), 0, 1)` with an opaque regressor. -/
def ChurnModel.predict (est : List ℚ → ℚ) (features : NpMatrix) :
    Except MLError (List ℚ) :=
  if features.cols ≠ 4 then .error (.invalidInput 4 features.cols)
  else .ok (features.rows.map fun r => min (max (est r) 0) 1)

/-- Embeds `AnomalyModel.predict` (anomaly_model.py lines 70-91): arity
check, opaque `decision_function` per row, min-max normalization with the
epsilon guard, then the `1 - normalized` inversion. -/
def AnomalyModel.predict (est : List ℚ → ℚ) (features : NpMatrix) :
    Except MLError (List ℚ) :=
  if features.cols ≠ 3 then .error (.invalidInput 3 features.cols)
  else .ok (anomalyScoresOf (features.rows.map est))

/-! ### `detect_anomalies` endpoint — `main.py` lines 172-207 -/

/-- The parsed per-contributor payload (main.py `ContributorFeatures`). -/
structure ContributorFeatures where
  experience_score : ℚ
  contributions : ℤ
  rejection_rate : ℚ
deriving DecidableEq

/-- One entry of `flagged_contributors` (main.py lines 197-201). -/
structure FlaggedContributor where
  index : ℕ
  anomaly_score : ℚ
  flag : String

/-- The `AnomalyResponse` payload (main.py lines 61-64). -/
structure AnomalyResponse where
  anomaly_scores : List ℚ
  flagged_contributors : List FlaggedContributor
  model_used : String

/-- The feature row built for one contributor (main.py lines 186-189). -/
def contribRow (f : ContributorFeatures) : List ℚ :=
  [f.experience_score, (f.contributions : ℚ), f.rejection_rate]

/-- The flagging loop of `detect_anomalies` (main.py lines 193-201):
`for i, score in enumerate(anomaly_scores): if score > 0.5: append(...)`. -/
def flagLoop : ℕ → List ℚ → List FlaggedContributor
  | _, [] => []
  | i, s :: rest =>
    if s > 0.5 then ⟨i, s, "Unusual activity pattern"⟩ :: flagLoop (i + 1) rest
    else flagLoop (i + 1) rest

/-- Embeds the `detect_anomalies` endpoint (main.py lines 172-207): empty
input short-circuits to an empty response; otherwise the contributor rows
(each of the three features) go through `AnomalyModel.predict` and scores
above 0.5 are flagged. -/
def detect_anomalies (est : List ℚ → ℚ) (features : List ContributorFeatures) :
    Except MLError AnomalyResponse :=
  if features = [] then .ok ⟨[], [], "IsolationForest"⟩
  else
    match AnomalyModel.predict est
        ⟨3, features.map contribRow, by
          intro r hr
          obtain ⟨f, _, rfl⟩ := List.mem_map.mp hr
          rfl⟩ with
    | .error e => .error e
    | .ok scores => .ok ⟨scores, flagLoop 0 scores, "IsolationForest"⟩

/-! ### Model lifecycle — `load_or_train` and the prediction-path guard -/

/-- Wrapper state, as set up in each wrapper's `__init__`:
`self.model` (absent until ready) and `self.is_trained`. -/
structure WrapperState (E : Type) where
  model : Option E
  is_trained : Bool

/-- Deployment-specific behavior of one wrapper, opaque in the source:
artifact decoding (`joblib.load`, which may fail), encoding
(`joblib.dump`), and the estimator produced by the deterministic seeded
synthetic training. -/
structure ModelEnv (E A : Type) where
  decode : A → Option E
  encode : E → A
  trainResult : E

/-- Outcome of one lifecycle step: the new wrapper state, the new artifact
slot on disk, and whether the step retrained / rewrote the artifact. -/
structure LifecycleResult (E A : Type) where
  state : WrapperState E
  store : Option A
  retrained : Bool
  wrote : Bool

/-- Embeds `_train_synthetic` (risk_model.py lines 62-106): train the estimator,
mark the wrapper trained, persist the artifact. -/
def trainSynthetic {E A : Type} (io : ModelEnv E A) : LifecycleResult E A :=
  ⟨⟨some io.trainResult, true⟩, some (io.encode io.trainResult), true, true⟩

/-- Embeds `load_or_train` (risk_model.py lines 44-60): adopt a readable persisted
artifact and mark trained; on a missing or unreadable artifact fall back to
synthetic training. -/
def load_or_train {E A : Type} (io : ModelEnv E A) (store : Option A) :
    LifecycleResult E A :=
  match store with
  | some a =>
    match io.decode a with
    | some m => ⟨⟨some m, true⟩, some a, false, false⟩
    | none => trainSynthetic io
  | none => trainSynthetic io

/-- The readiness guard on every prediction path, `if not self.is_trained:
self.load_or_train()` (risk_model.py lines 110-111; same pattern in the
churn and anomaly wrappers) — the spec's `ensure_ready()`. -/
def ensure_ready {E A : Type} (io : ModelEnv E A) (st : WrapperState E)
    (store : Option A) : LifecycleResult E A :=
  if st.is_trained then ⟨st, store, false, false⟩
  else load_or_train io store

/-- A concrete `ModelEnv` over naturals (identity round-trip), used to
instantiate witnesses. -/
def envNat : ModelEnv ℕ ℕ :=
  ⟨some, id, 7⟩

/-! ### Explanation engine — `RiskModel.get_feature_importance` -/

/-- The list `FEATURE_NAMES` (risk_model.py lines 8-17). -/
def FEATURE_NAMES : List String :=
  ["PR Size (Lines)", "Files Changed", "Commit Count", "Review Comments",
   "Time to Merge", "Contributor Rejection Rate", "Contributor Experience",
   "File Churn Score"]

/-- The dict `FEATURE_DESCRIPTIONS` (risk_model.py lines 20-29) as a lookup; in the
source the dict is only ever indexed with members of `FEATURE_NAMES`, so
the trailing default is unreachable. -/
def FEATURE_DESCRIPTIONS (name : String) : String :=
  if name = "PR Size (Lines)" then "Large PR Size"
  else if name = "Files Changed" then "High File Count"
  else if name = "Commit Count" then "Many Commits"
  else if name = "Review Comments" then "Review Activity"
  else if name = "Time to Merge" then "Slow Merge Time"
  else if name = "Contributor Rejection Rate" then "High Rejection Rate"
  else if name = "Contributor Experience" then "Low Contributor Experience"
  else "High File Churn"

/-- The loop body of `for i, (importance, value) in
enumerate(zip(self.feature_importances_, feature_values))`
(risk_model.py lines 145-156), with the running index made explicit:
`normalized_value = min(value / 10, 1.0)` and
`impact = importance * normalized_value`. -/
def rawImpactsFrom : ℕ → List (ℚ × ℚ) → List ImpactRecord
  | _, [] => []
  | i, (imp, v) :: rest =>
    ⟨FEATURE_NAMES.getD i "",
     FEATURE_DESCRIPTIONS (FEATURE_NAMES.getD i ""),
     v, imp, imp * min (v / 10) 1⟩ :: rawImpactsFrom (i + 1) rest

/-- The per-feature impact records (risk_model.py lines 145-156). -/
def rawImpacts (importances values : List ℚ) : List ImpactRecord :=
  rawImpactsFrom 0 (importances.zip values)

/-- Descending order on impact weight:
`impacts.sort(key=..., reverse=True)` (risk_model.py line 159). -/
def impactGE (a b : ImpactRecord) : Prop :=
  b.impact_weight ≤ a.impact_weight

instance : DecidableRel impactGE := fun a b =>
  inferInstanceAs (Decidable (b.impact_weight ≤ a.impact_weight))

instance : IsTotal ImpactRecord impactGE :=
  ⟨fun a b => le_total b.impact_weight a.impact_weight⟩

instance : IsTrans ImpactRecord impactGE :=
  ⟨fun _ _ _ h1 h2 => le_trans h2 h1⟩

/-- Python's `round` to an integer: round half to even. -/
def pyRound (x : ℚ) : ℤ :=
  if x - ⌊x⌋ < 1 / 2 then ⌊x⌋
  else if 1 / 2 < x - ⌊x⌋ then ⌊x⌋ + 1
  else if ⌊x⌋ % 2 = 0 then ⌊x⌋ else ⌊x⌋ + 1

/-- Embeds `round(x, 2)` (risk_model.py line 165): two decimal places. -/
def round2 (x : ℚ) : ℚ :=
  (pyRound (x * 100) : ℚ) / 100

/-- The impact records sorted descending by impact weight.  The source uses
Python's stable `list.sort`; any sort agreeing with the descending order is
extensionally adequate for the stated properties, which do not constrain
tie order. -/
def sortedImpacts (importances values : List ℚ) : List ImpactRecord :=
  List.insertionSort impactGE (rawImpacts importances values)

/-- Embeds `total_impact = sum(item.impact_weight for item in impacts)` over the
sorted records (risk_model.py line 162). -/
def totalImpact (importances values : List ℚ) : ℚ :=
  ((sortedImpacts importances values).map fun r => r.impact_weight).sum

/-- Embeds `RiskModel.get_feature_importance` (risk_model.py lines 131-168)
with the trained estimator's global importance vector as the opaque
parameter: build per-feature impacts, sort descending, and — when the total
impact over ALL features is positive — replace every weight by its rounded
share of that total; finally return the top 3 records. -/
def get_feature_importance (importances values : List ℚ) :
    List ImpactRecord :=
  (if 0 < totalImpact importances values then
      (sortedImpacts importances values).map fun r =>
        { r with impact_weight :=
            round2 (r.impact_weight / totalImpact importances values) }
    else sortedImpacts importances values).take 3

/-- A concrete importance vector (non-negative, summing to 1): the
counterexample instance for the top-3 renormalization claim. -/
def cxImportances : List ℚ :=
  [1 / 2, 1 / 5, 1 / 10, 1 / 10, 1 / 10, 0, 0, 0]

/-- All feature values at 10, so every normalized value is
`min(10 / 10, 1.0) = 1`. -/
def tenValues : List ℚ :=
  [10, 10, 10, 10, 10, 10, 10, 10]

/-- The impact record produced at index `i` for importance `imp` and
feature value 10 (its impact weight is `imp * 1 = imp`). -/
def cxRecord (i : ℕ) (imp : ℚ) : ImpactRecord :=
  ⟨FEATURE_NAMES.getD i "",
   FEATURE_DESCRIPTIONS (FEATURE_NAMES.getD i ""),
   10, imp, imp⟩

/-- A 7-column batch: wrong arity for all three wrappers. -/
def mat7 : NpMatrix :=
  ⟨7, [[0, 0, 0, 0, 0, 0, 0]], by decide⟩

/-- A constant estimator, used to instantiate witnesses. -/
def constEst : List ℚ → ℚ := fun _ => 0

/-- A single-contributor batch, used to instantiate witnesses. -/
def oneContributor : List ContributorFeatures :=
  [⟨0, 0, 0⟩]

/-- C5: `get_risk_level` returns "Low" iff the score is below 0.4, "Medium"
iff it lies in the closed interval [0.4, 0.7], and "High" iff it is above
0.7 (0.4 is Medium's lower inclusive bound, 0.7 its upper inclusive bound). -/
theorem get_risk_level_buckets (s : ℚ) :
    (get_risk_level s = "Low" ↔ s < 0.4) ∧
    (get_risk_level s = "Medium" ↔ 0.4 ≤ s ∧ s ≤ 0.7) ∧
    (get_risk_level s = "High" ↔ 0.7 < s) := by
  unfold get_risk_level
  split_ifs with h1 h2 <;>
    refine ⟨?_, ?_, ?_⟩ <;> constructor <;> intro h <;>
    first
      | rfl
      | linarith
      | simp_all

/-- C6: the churn level is "critical" iff the score is above 0.8, "high" iff
it is in (0.6, 0.8], "medium" iff it is in (0.4, 0.6], and "low" iff it is at
most 0.4; the four buckets are mutually exclusive and cover every score, in
particular the whole [0,1] range. -/
theorem churn_level_buckets (s : ℚ) :
    (churn_level s = "critical" ↔ 0.8 < s) ∧
    (churn_level s = "high" ↔ 0.6 < s ∧ s ≤ 0.8) ∧
    (churn_level s = "medium" ↔ 0.4 < s ∧ s ≤ 0.6) ∧
    (churn_level s = "low" ↔ s ≤ 0.4) := by
  unfold churn_level
  split_ifs with h1 h2 h3 <;>
    refine ⟨?_, ?_, ?_, ?_⟩ <;> constructor <;> intro h <;>
    first
      | rfl
      | linarith
      | simp_all

/-- Lower bound on `exp 7.5`, used to evaluate the `approx_lines > 1500` rule. -/
theorem exp_sample_f1_gt : (1502 : ℝ) < Real.exp (((15 : ℚ) / 2 : ℚ) : ℝ) := by
  have hcast : (((15 : ℚ) / 2 : ℚ) : ℝ) = 7 + 2⁻¹ := by norm_num
  have hpow : (2.7182818283 : ℝ) ^ (7 : ℕ) ≤ Real.exp 1 ^ (7 : ℕ) :=
    pow_le_pow_left₀ (by norm_num) (le_of_lt Real.exp_one_gt_d9) 7
  have h7 : (2.7182818283 : ℝ) ^ (7 : ℕ) ≤ Real.exp 7 := by
    have he : Real.exp 1 ^ (7 : ℕ) = Real.exp 7 := by
      rw [Real.exp_one_pow]
      norm_num
    rw [he] at hpow
    exact hpow
  have hhalf : (3 / 2 : ℝ) ≤ Real.exp 2⁻¹ := by
    have := Real.add_one_le_exp (2⁻¹ : ℝ)
    linarith
  rw [hcast, Real.exp_add]
  calc (1502 : ℝ) < 2.7182818283 ^ (7 : ℕ) * (3 / 2) := by norm_num
    _ ≤ Real.exp 7 * Real.exp 2⁻¹ :=
        mul_le_mul h7 hhalf (by norm_num) (le_of_lt (Real.exp_pos 7))

/-- Rule 1 fires on the sample vector: `int(exp(7.5) - 1) > 1500`. -/
theorem approx_lines_sample_gt : 1500 < approx_lines ((15 : ℚ) / 2) := by
  have h := exp_sample_f1_gt
  unfold approx_lines pyInt
  rw [if_pos (by linarith)]
  have h2 : (1501 : ℤ) ≤ ⌊Real.exp (((15 : ℚ) / 2 : ℚ) : ℝ) - 1⌋ :=
    Int.le_floor.mpr (by push_cast; linarith)
  omega

/-- Evaluation fact `approx_lines 0 = 0`: no rule-1 trigger on the quiet PR. -/
theorem approx_lines_zero : approx_lines (0 : ℚ) = 0 := by
  unfold approx_lines pyInt
  norm_num

/-- No threshold rule triggers on the quiet PR, whatever the risk score. -/
theorem ruleRecs_prQuiet (risk_score : ℚ) : ruleRecs prQuiet risk_score = [] := by
  norm_num [ruleRecs, appendIf, prQuiet, approx_lines_zero]

/-- C7: `generate_recommendations` never returns an empty list: if zero
threshold rules trigger and the risk score exceeds 0.7 it appends the generic
high-risk advisory, and if the list is still empty it appends the generic
"looks good" message. -/
theorem generate_recommendations_nonempty (features : PRFeatures)
    (risk_score : ℚ) (top_factors : List ImpactRecord) :
    generate_recommendations features risk_score top_factors ≠ [] ∧
    (ruleRecs features risk_score = [] → risk_score > 0.7 →
      generate_recommendations features risk_score top_factors
        = [recHighOverallRisk]) ∧
    (ruleRecs features risk_score = [] → ¬ risk_score > 0.7 →
      generate_recommendations features risk_score top_factors
        = [recLooksGood]) := by
  refine ⟨?_, fun hr hs => ?_, fun hr hs => ?_⟩
  · unfold generate_recommendations fallbackLooksGood
    split
    · simp
    · assumption
  · unfold generate_recommendations
    rw [hr]
    unfold fallbackHighRisk
    rw [if_pos ⟨hs, rfl⟩]
    unfold fallbackLooksGood
    simp
  · unfold generate_recommendations
    rw [hr]
    unfold fallbackHighRisk
    rw [if_neg (fun hc => hs hc.1)]
    unfold fallbackLooksGood
    simp

/-- Witness for C7 at concrete inputs: on the quiet PR the high-risk advisory
appears for score 0.9 and the "looks good" message for score 0.2. -/
theorem generate_recommendations_nonempty_witness :
    generate_recommendations prQuiet 0.9 [] = [recHighOverallRisk] ∧
    generate_recommendations prQuiet 0.2 [] = [recLooksGood] :=
  ⟨(generate_recommendations_nonempty prQuiet 0.9 []).2.1
      (ruleRecs_prQuiet 0.9) (by norm_num),
   (generate_recommendations_nonempty prQuiet 0.2 []).2.2
      (ruleRecs_prQuiet 0.2) (by norm_num)⟩

/-- C8: on the sample vector `f1=7.5, f2=15, f3=6, f4=0, f5=0.6, f6=0.4,
f7=0.2, f8=0.7`, the recommendations list starts with exactly the
"split PR", "multiple files", "senior reviewer", "high churn", "slow merge",
"high rejection rate" and "multiple commits" messages, in rule-declaration
order. -/
theorem recommendations_sample_order (risk_score : ℚ)
    (top_factors : List ImpactRecord) :
    (generate_recommendations pr8 risk_score top_factors).take 7 =
      [recSplitPR, recMultipleFiles, recSeniorReviewer, recHighChurn,
       recSlowMerge, recHighRejection, recMultipleCommits] := by
  have hexp := approx_lines_sample_gt
  by_cases hrs : (1 / 2 : ℚ) < risk_score
  · norm_num [generate_recommendations, ruleRecs, appendIf, fallbackHighRisk,
      fallbackLooksGood, pr8, hexp, hrs, List.cons_ne_nil]
  · norm_num [generate_recommendations, ruleRecs, appendIf, fallbackHighRisk,
      fallbackLooksGood, pr8, hexp, hrs, List.cons_ne_nil]

/-- A left `min`-fold over an all-equal list stays at the common value. -/
theorem foldl_min_const (c : ℚ) :
    ∀ xs : List ℚ, (∀ x ∈ xs, x = c) → xs.foldl min c = c := by
  intro xs
  induction xs with
  | nil => intro _; rfl
  | cons x xs ih =>
    intro h
    have hx : x = c := h x (List.mem_cons_self x xs)
    simp only [List.foldl_cons, hx, min_self]
    exact ih fun y hy => h y (List.mem_cons_of_mem x hy)

/-- A left `max`-fold over an all-equal list stays at the common value. -/
theorem foldl_max_const (c : ℚ) :
    ∀ xs : List ℚ, (∀ x ∈ xs, x = c) → xs.foldl max c = c := by
  intro xs
  induction xs with
  | nil => intro _; rfl
  | cons x xs ih =>
    intro h
    have hx : x = c := h x (List.mem_cons_self x xs)
    simp only [List.foldl_cons, hx, max_self]
    exact ih fun y hy => h y (List.mem_cons_of_mem x hy)

/-- The batch minimum of an all-equal non-empty list is the common value. -/
theorem listMin_const (raw : List ℚ) (c : ℚ) (hne : raw ≠ [])
    (hall : ∀ x ∈ raw, x = c) : listMin raw = c := by
  cases raw with
  | nil => exact absurd rfl hne
  | cons x xs =>
    have hx : x = c := hall x (List.mem_cons_self x xs)
    simp only [listMin, hx]
    exact foldl_min_const c xs fun y hy => hall y (List.mem_cons_of_mem x hy)

/-- The batch maximum of an all-equal non-empty list is the common value. -/
theorem listMax_const (raw : List ℚ) (c : ℚ) (hne : raw ≠ [])
    (hall : ∀ x ∈ raw, x = c) : listMax raw = c := by
  cases raw with
  | nil => exact absurd rfl hne
  | cons x xs =>
    have hx : x = c := hall x (List.mem_cons_self x xs)
    simp only [listMax, hx]
    exact foldl_max_const c xs fun y hy => hall y (List.mem_cons_of_mem x hy)

/-- On a degenerate batch the range denominator collapses to the epsilon. -/
theorem rangeDen_const (raw : List ℚ) (c : ℚ) (hne : raw ≠ [])
    (hall : ∀ x ∈ raw, x = c) : rangeDen raw = anomalyEps := by
  unfold rangeDen
  rw [listMin_const raw c hne hall, listMax_const raw c hne hall]
  ring

/-- On a degenerate batch every min-max normalized score is 0. -/
theorem normalizeScores_const (raw : List ℚ) (c : ℚ) (hne : raw ≠ [])
    (hall : ∀ x ∈ raw, x = c) :
    normalizeScores raw = List.replicate raw.length 0 := by
  unfold normalizeScores
  refine List.eq_replicate_iff.mpr ⟨by simp, ?_⟩
  intro b hb
  obtain ⟨r, hr, rfl⟩ := List.mem_map.mp hb
  rw [hall r hr, listMin_const raw c hne hall, sub_self, zero_div]

/-- On a degenerate batch every inverted anomaly score is 1. -/
theorem anomalyScoresOf_const (raw : List ℚ) (c : ℚ) (hne : raw ≠ [])
    (hall : ∀ x ∈ raw, x = c) :
    anomalyScoresOf raw = List.replicate raw.length 1 := by
  unfold anomalyScoresOf
  rw [normalizeScores_const raw c hne hall, List.map_replicate]
  norm_num

/-- C2: on a non-empty batch whose raw decision scores are all equal, the
min-max range denominator is the strictly positive epsilon — no division
by zero — and every normalized score equals 0. -/
theorem anomaly_degenerate_normalization (raw : List ℚ) (c : ℚ)
    (hne : raw ≠ []) (hall : ∀ x ∈ raw, x = c) :
    0 < rangeDen raw ∧ normalizeScores raw = List.replicate raw.length 0 := by
  constructor
  · rw [rangeDen_const raw c hne hall]
    norm_num [anomalyEps]
  · exact normalizeScores_const raw c hne hall

/-- Witness for C2 on the concrete degenerate batch `[5, 5, 5]`. -/
theorem anomaly_degenerate_normalization_witness :
    0 < rangeDen [5, 5, 5] ∧
    normalizeScores [5, 5, 5] = List.replicate 3 0 :=
  anomaly_degenerate_normalization [5, 5, 5] 5 (by decide) (by decide)

/-- C9: `detect_anomalies` on an empty feature list returns empty
`anomaly_scores`, empty `flagged_contributors` and `model_used =
"IsolationForest"`, without an error. -/
theorem detect_anomalies_empty (est : List ℚ → ℚ) :
    detect_anomalies est [] = .ok ⟨[], [], "IsolationForest"⟩ := rfl

/-- C4: each wrapper's `predict` fails with `InvalidInputError`, naming the
expected and actual counts, whenever the batch width differs from the
wrapper's fixed arity (8 for risk, 4 for churn, 3 for anomaly). -/
theorem predict_arity_validation (est : List ℚ → ℚ) (features : NpMatrix) :
    (features.cols ≠ 8 →
      RiskModel.predict est features
        = .error (.invalidInput 8 features.cols)) ∧
    (features.cols ≠ 4 →
      ChurnModel.predict est features
        = .error (.invalidInput 4 features.cols)) ∧
    (features.cols ≠ 3 →
      AnomalyModel.predict est features
        = .error (.invalidInput 3 features.cols)) := by
  refine ⟨fun h => ?_, fun h => ?_, fun h => ?_⟩ <;>
    simp [RiskModel.predict, ChurnModel.predict, AnomalyModel.predict, h]

/-- Witness for C4 on a concrete 7-column batch. -/
theorem predict_arity_validation_witness :
    RiskModel.predict constEst mat7 = .error (.invalidInput 8 7) ∧
    ChurnModel.predict constEst mat7 = .error (.invalidInput 4 7) ∧
    AnomalyModel.predict constEst mat7 = .error (.invalidInput 3 7) :=
  ⟨(predict_arity_validation constEst mat7).1 (by decide),
   (predict_arity_validation constEst mat7).2.1 (by decide),
   (predict_arity_validation constEst mat7).2.2 (by decide)⟩

/-- Flagging a constant-1 score list flags every index in order. -/
theorem flagLoop_replicate_one :
    ∀ n i : ℕ, flagLoop i (List.replicate n 1) =
      (List.range' i n).map
        fun j => FlaggedContributor.mk j 1 "Unusual activity pattern" := by
  intro n
  induction n with
  | zero => intro i; rfl
  | succ n ih =>
    intro i
    simp only [List.replicate_succ, flagLoop, List.range', List.map_cons]
    rw [if_pos (by norm_num), ih (i + 1)]

/-- C10: on a non-empty batch whose raw decision scores are all equal, every
returned anomaly score is `1 - 0 = 1`, and every contributor in the batch is
flagged (each score exceeds the 0.5 threshold). -/
theorem degenerate_batch_all_flagged (est : List ℚ → ℚ) (c : ℚ)
    (features : List ContributorFeatures) (hne : features ≠ [])
    (hall : ∀ f ∈ features, est (contribRow f) = c) :
    detect_anomalies est features =
      .ok ⟨List.replicate features.length 1,
           (List.range features.length).map
             (fun i => FlaggedContributor.mk i 1 "Unusual activity pattern"),
           "IsolationForest"⟩ := by
  have hlen : features.length ≠ 0 := fun h => hne (List.length_eq_zero.mp h)
  have hraw : (features.map contribRow).map est
      = List.replicate features.length c := by
    rw [List.map_map]
    refine List.eq_replicate_iff.mpr ⟨by simp, ?_⟩
    intro b hb
    obtain ⟨f, hf, rfl⟩ := List.mem_map.mp hb
    exact hall f hf
  have hrepne : List.replicate features.length c ≠ [] := by
    intro h
    exact hlen (by simpa using congrArg List.length h)
  unfold detect_anomalies
  rw [if_neg hne]
  simp only [AnomalyModel.predict]
  rw [if_neg (by norm_num), hraw,
    anomalyScoresOf_const (List.replicate features.length c) c hrepne
      (fun x hx => List.eq_of_mem_replicate hx),
    List.length_replicate]
  simp only [flagLoop_replicate_one features.length 0, List.range_eq_range']

/-- Witness for C10 on a concrete one-element degenerate batch. -/
theorem degenerate_batch_all_flagged_witness :
    detect_anomalies constEst oneContributor =
      .ok ⟨[1], [⟨0, 1, "Unusual activity pattern"⟩], "IsolationForest"⟩ := by
  have h := degenerate_batch_all_flagged constEst 0 oneContributor
    (by decide) (fun f _ => rfl)
  simpa [oneContributor] using h

/-- C3: the readiness call of the prediction paths is idempotent: when the
wrapper is already trained it is a no-op, its result is always a trained
wrapper, and a second call in sequence performs no retraining and no
artifact rewrite, leaving state and store exactly as the first call left
them. -/
theorem ensure_ready_idempotent {E A : Type} (io : ModelEnv E A)
    (st : WrapperState E) (store : Option A) :
    (st.is_trained = true →
      ensure_ready io st store = ⟨st, store, false, false⟩) ∧
    (ensure_ready io st store).state.is_trained = true ∧
    ensure_ready io (ensure_ready io st store).state
        (ensure_ready io st store).store =
      ⟨(ensure_ready io st store).state, (ensure_ready io st store).store,
        false, false⟩ := by
  have hnoop : ∀ (st' : WrapperState E) (store' : Option A),
      st'.is_trained = true →
      ensure_ready io st' store' = ⟨st', store', false, false⟩ := by
    intro st' store' h
    unfold ensure_ready
    rw [if_pos h]
  have htr : (ensure_ready io st store).state.is_trained = true := by
    unfold ensure_ready load_or_train trainSynthetic
    split
    · next h => exact h
    · cases store with
      | none => rfl
      | some a =>
        cases h : io.decode a with
        | some m => simp [h]
        | none => simp [h]
  exact ⟨hnoop st store, htr, hnoop _ _ htr⟩

/-- Witness for C3: the trained no-op at a concrete trained state, and the
second-call no-op after a cold start from an empty store. -/
theorem ensure_ready_idempotent_witness :
    (ensure_ready envNat ⟨some 7, true⟩ (some 7)
      = ⟨⟨some 7, true⟩, some 7, false, false⟩) ∧
    ((ensure_ready envNat ⟨none, false⟩ none).state.is_trained = true) ∧
    (ensure_ready envNat (ensure_ready envNat ⟨none, false⟩ none).state
        (ensure_ready envNat ⟨none, false⟩ none).store =
      ⟨(ensure_ready envNat ⟨none, false⟩ none).state,
       (ensure_ready envNat ⟨none, false⟩ none).store, false, false⟩) :=
  ⟨(ensure_ready_idempotent envNat ⟨some 7, true⟩ (some 7)).1 rfl,
   (ensure_ready_idempotent envNat ⟨none, false⟩ none).2.1,
   (ensure_ready_idempotent envNat ⟨none, false⟩ none).2.2⟩

/-- The value `pyRound x` never exceeds the floor by more than one. -/
theorem pyRound_le (x : ℚ) : pyRound x ≤ ⌊x⌋ + 1 := by
  unfold pyRound
  split_ifs <;> omega

/-- The value `pyRound x` is at least the floor. -/
theorem le_pyRound (x : ℚ) : ⌊x⌋ ≤ pyRound x := by
  unfold pyRound
  split_ifs <;> omega

/-- Round-half-to-even is monotone. -/
theorem pyRound_mono {x y : ℚ} (h : x ≤ y) : pyRound x ≤ pyRound y := by
  have hfl : ⌊x⌋ ≤ ⌊y⌋ := Int.floor_le_floor h
  rcases lt_or_eq_of_le hfl with hlt | heq
  · have h1 := pyRound_le x
    have h2 := le_pyRound y
    omega
  · have hfr : x - ⌊x⌋ ≤ y - ⌊x⌋ := by linarith
    unfold pyRound
    rw [← heq]
    split_ifs <;> first | omega | linarith

/-- Rounding to two decimals is monotone. -/
theorem round2_mono {x y : ℚ} (h : x ≤ y) : round2 x ≤ round2 y := by
  unfold round2
  have h1 : x * 100 ≤ y * 100 := by linarith
  have h2 : (pyRound (x * 100) : ℚ) ≤ (pyRound (y * 100) : ℚ) := by
    exact_mod_cast pyRound_mono h1
  linarith

/-- Summing a list divided pointwise equals dividing the sum. -/
theorem sum_map_div (xs : List ℚ) (t : ℚ) :
    (xs.map fun x => x / t).sum = xs.sum / t := by
  induction xs with
  | nil => simp
  | cons x xs ih => simp [ih, add_div]

/-- C1 (amended): the top-factors list has at most 3 entries and is sorted
descending by impact weight, where each returned weight is the rounded
share `round2(raw_impact / total_impact)` of the total over ALL features;
when the total impact is positive it is the full pre-truncation list of
normalized weights that sums to 1 (exactly, before rounding) — the
returned top-3 list sums only to the top-3 share of the total. -/
theorem feature_importance_spec (importances values : List ℚ) :
    (get_feature_importance importances values).length ≤ 3 ∧
    List.Sorted impactGE (get_feature_importance importances values) ∧
    (0 < totalImpact importances values →
      ((sortedImpacts importances values).map
          fun r => r.impact_weight / totalImpact importances values).sum
        = 1) := by
  refine ⟨?_, ?_, fun ht => ?_⟩
  · unfold get_feature_importance
    simp only [List.length_take]
    exact min_le_left _ _
  · unfold get_feature_importance
    apply List.Pairwise.sublist (List.take_sublist 3 _)
    split
    · next ht =>
      refine List.Pairwise.map _ ?_
        (List.sorted_insertionSort impactGE (rawImpacts importances values))
      intro a b hab
      exact round2_mono ((div_le_div_iff_of_pos_right ht).mpr hab)
    · exact List.sorted_insertionSort impactGE (rawImpacts importances values)
  · have hm : (sortedImpacts importances values).map
        (fun r => r.impact_weight / totalImpact importances values)
      = ((sortedImpacts importances values).map fun r => r.impact_weight).map
          (fun w => w / totalImpact importances values) := by
      rw [List.map_map]
      rfl
    rw [hm, sum_map_div]
    exact div_self (ne_of_gt ht)

/-- Computes `take 3` on a list with at least three elements. -/
theorem take_three {α : Type} (a b c : α) (rest : List α) :
    List.take 3 (a :: b :: c :: rest) = [a, b, c] := rfl

/-- Evaluation of the raw impact records at the counterexample instance. -/
theorem rawImpacts_cx :
    rawImpacts cxImportances tenValues =
      [cxRecord 0 (1 / 2), cxRecord 1 (1 / 5), cxRecord 2 (1 / 10),
       cxRecord 3 (1 / 10), cxRecord 4 (1 / 10), cxRecord 5 0,
       cxRecord 6 0, cxRecord 7 0] := by
  norm_num [rawImpacts, rawImpactsFrom, cxImportances, tenValues, cxRecord,
    List.zip, List.zipWith, min_def]

/-- The counterexample records are already in descending order, so the sort
leaves them in place. -/
theorem sortedImpacts_cx :
    sortedImpacts cxImportances tenValues =
      [cxRecord 0 (1 / 2), cxRecord 1 (1 / 5), cxRecord 2 (1 / 10),
       cxRecord 3 (1 / 10), cxRecord 4 (1 / 10), cxRecord 5 0,
       cxRecord 6 0, cxRecord 7 0] := by
  norm_num [sortedImpacts, rawImpacts_cx, List.insertionSort,
    List.orderedInsert, impactGE, cxRecord]

/-- The total impact at the counterexample instance is 1. -/
theorem totalImpact_cx : totalImpact cxImportances tenValues = 1 := by
  norm_num [totalImpact, sortedImpacts_cx, cxRecord]

/-- The returned top-3 impact weights at the counterexample instance. -/
theorem top3_weights_cx :
    (get_feature_importance cxImportances tenValues).map
      (fun r => r.impact_weight) = [1 / 2, 1 / 5, 1 / 10] := by
  norm_num [get_feature_importance, totalImpact_cx, sortedImpacts_cx,
    cxRecord, round2, pyRound, take_three]

/-- Witness for C1 (amended) at the concrete counterexample instance. -/
theorem feature_importance_spec_witness :
    (get_feature_importance cxImportances tenValues).length ≤ 3 ∧
    List.Sorted impactGE (get_feature_importance cxImportances tenValues) ∧
    ((sortedImpacts cxImportances tenValues).map
        fun r => r.impact_weight / totalImpact cxImportances tenValues).sum
      = 1 :=
  ⟨(feature_importance_spec cxImportances tenValues).1,
   (feature_importance_spec cxImportances tenValues).2.1,
   (feature_importance_spec cxImportances tenValues).2.2
      (by rw [totalImpact_cx]; norm_num)⟩

/-- C1 counterexample: with importances `[0.5, 0.2, 0.1, 0.1, 0.1, 0, 0, 0]`
and all feature values 10 the total impact is positive (it is 1), yet the
impact weights of the returned top-3 list sum to `0.8`, not 1 (far beyond
any 2-decimal rounding slack): the source divides every weight by the total
over all 8 features before truncating to the top 3, so the top list's sum
depends on — and omits — the excluded lower-ranked features' share. -/
theorem feature_importance_top3_sum_counterexample :
    0 < totalImpact cxImportances tenValues ∧
    ((get_feature_importance cxImportances tenValues).map
        fun r => r.impact_weight).sum = 4 / 5 := by
  constructor
  · rw [totalImpact_cx]
    norm_num
  · rw [top3_weights_cx]
    norm_num

end RepoPulse
